import Mathlib

/-!
Verification of the memory subsystem and SMP bring-up path of the
`rust-kernel` repository, as described by its specification.

The Rust sources are shallowly embedded: machine integers become `Nat`
(all quantities involved stay far below 2^64 in every scenario used),
`&mut self` methods become state-passing functions returning the new
state, fallible operations return `Except`/`Option`, and a Rust `panic!`
(or `todo!`/`expect`) is modelled by an outer `Option` whose `none`
means the kernel panicked.
-/

namespace RustKernel

/-! ## Physical frame allocator (`src/src/memory.rs`)

`BitmapFrameAllocator` owns one bit per physical 4 KiB frame:
bit `i = true` means frame `i` is used (or unusable), `false` means free. -/

def PAGE_SIZE : Nat := 4096

structure BitmapFrameAllocator where
  base_addr : Nat
  frame_count : Nat
  bitmap : List Bool
  deriving Repr, DecidableEq

/-- Embeds `bitmap.iter().enumerate().find(|(_, bit)| !**bit)`:
the index of the first `false` bit. -/
def firstFreeIdx : List Bool → Option Nat
  | [] => none
  | true :: bs => (firstFreeIdx bs).map (· + 1)
  | false :: _ => some 0

/-- Embeds `index_as_frame`: `PhysFrame::containing_address(base_addr + index * PAGE_SIZE)`;
`containing_address` truncates to the 4096-byte boundary. -/
def index_as_frame (a : BitmapFrameAllocator) (index : Nat) : Nat :=
  PAGE_SIZE * ((a.base_addr + index * PAGE_SIZE) / PAGE_SIZE)

/-- Embeds `frame_as_index`: reject addresses below `base_addr` or past `frame_count`. -/
def frame_as_index (a : BitmapFrameAllocator) (frame_addr : Nat) : Option Nat :=
  if frame_addr < a.base_addr then none
  else
    let index := (frame_addr - a.base_addr) / PAGE_SIZE
    if a.frame_count ≤ index then none else some index

/-- Embeds `FrameAllocator::allocate_frame`: take the first free bit, set it used. -/
def allocate_frame (a : BitmapFrameAllocator) : Option Nat × BitmapFrameAllocator :=
  match firstFreeIdx a.bitmap with
  | some idx => (some (index_as_frame a idx), { a with bitmap := a.bitmap.set idx true })
  | none => (none, a)

/-- Embeds `FrameDeallocator::deallocate_frame`; `none` models the `todo!` panic taken
when the frame is not owned by the allocator. -/
def deallocate_frame (a : BitmapFrameAllocator) (frame_addr : Nat) :
    Option BitmapFrameAllocator :=
  match frame_as_index a frame_addr with
  | some idx => some { a with bitmap := a.bitmap.set idx false }
  | none => none

/-! ## Page allocator (`src/kernel/src/allocator/page_allocator.rs`)

The mapper (`OffsetPageTable`) is embedded as a finite partial map from
page base address to `(frame, flags)`, kept as an association list. -/

structure Mapper where
  entries : List (Nat × Nat × Nat)
  deriving Repr, DecidableEq

def Mapper.lookup (m : Mapper) (page : Nat) : Option (Nat × Nat) :=
  (m.entries.find? fun e => e.1 == page).map (·.2)

/-- Embeds `Mapper::map_to`: fails (`PageAlreadyMappedTo`) when the page is mapped. -/
def Mapper.map_to (m : Mapper) (page frame flags : Nat) : Option Mapper :=
  match m.lookup page with
  | some _ => none
  | none => some ⟨(page, frame, flags) :: m.entries⟩

/-- Embeds `Mapper::unmap`: returns the frame previously mapped, or fails (`PageNotMapped`). -/
def Mapper.unmap (m : Mapper) (page : Nat) : Option (Nat × Mapper) :=
  match m.lookup page with
  | some (frame, _) => some (frame, ⟨m.entries.filter fun e => !(e.1 == page)⟩)
  | none => none

inductive MapToError
  | frameAllocationFailed
  | pageAlreadyMapped
  deriving Repr, DecidableEq

inductive UnmapError
  | pageNotMapped
  /-- models the `todo!` panic in `deallocate_frame` reached from `dealloc` -/
  | frameNotOwned
  deriving Repr, DecidableEq

/-- Embeds `PageTableFlags::PRESENT | PageTableFlags::WRITABLE` (bits 0 and 1). -/
def PRESENT_WRITABLE : Nat := 3

def KERNEL_HEAP_START : Nat := 0xFFFFFF0000000000
def KERNEL_HEAP_SIZE : Nat := 0x40000000
def KERNEL_HEAP_END : Nat := KERNEL_HEAP_START + KERNEL_HEAP_SIZE

structure PageAllocator where
  frame_allocator : BitmapFrameAllocator
  mapper : Mapper
  current_virt : Nat
  end_virt : Nat
  deriving Repr, DecidableEq

/-- The body of `PageAllocator::alloc`'s `for i in 0..num_pages` loop,
faithful to the source: `current_virt += bytes_needed` sits INSIDE the loop.
On an error the partially-updated state is returned, as the Rust `?` leaves
the `&mut self` mutations in place. -/
def PageAllocator.allocLoop (start_addr bytes_needed flags : Nat) :
    List Nat → PageAllocator → Except MapToError Unit × PageAllocator
  | [], pa => (Except.ok (), pa)
  | i :: rest, pa =>
    let page_virt := start_addr + i * PAGE_SIZE
    let page := PAGE_SIZE * (page_virt / PAGE_SIZE)
    match allocate_frame pa.frame_allocator with
    | (none, fa) => (Except.error MapToError.frameAllocationFailed, { pa with frame_allocator := fa })
    | (some frame, fa) =>
      match pa.mapper.map_to page frame flags with
      | none => (Except.error MapToError.pageAlreadyMapped, { pa with frame_allocator := fa })
      | some m =>
        PageAllocator.allocLoop start_addr bytes_needed flags rest
          { pa with
            frame_allocator := fa
            mapper := m
            current_virt := pa.current_virt + bytes_needed }

/-- Embeds `PageAllocator::alloc(num_pages, flags)`. -/
def PageAllocator.alloc (pa : PageAllocator) (num_pages flags : Nat) :
    Except MapToError Nat × PageAllocator :=
  let bytes_needed := num_pages * PAGE_SIZE
  if pa.end_virt < pa.current_virt + bytes_needed then
    (Except.error MapToError.frameAllocationFailed, pa)
  else
    let start_addr := pa.current_virt
    match PageAllocator.allocLoop start_addr bytes_needed flags (List.range num_pages) pa with
    | (Except.ok _, pa') => (Except.ok start_addr, pa')
    | (Except.error e, pa') => (Except.error e, pa')

/-- The body of `PageAllocator::dealloc`'s loop: unmap each page, flush,
return the frame to the frame allocator. -/
def PageAllocator.deallocLoop (addr : Nat) :
    List Nat → PageAllocator → Except UnmapError Unit × PageAllocator
  | [], pa => (Except.ok (), pa)
  | i :: rest, pa =>
    let page_virt := addr + i * PAGE_SIZE
    let page := PAGE_SIZE * (page_virt / PAGE_SIZE)
    match pa.mapper.unmap page with
    | none => (Except.error UnmapError.pageNotMapped, pa)
    | some (frame, m) =>
      match deallocate_frame pa.frame_allocator frame with
      | none => (Except.error UnmapError.frameNotOwned, { pa with mapper := m })
      | some fa =>
        PageAllocator.deallocLoop addr rest { pa with mapper := m, frame_allocator := fa }

/-- Embeds `PageAllocator::dealloc(addr, num_pages)`. -/
def PageAllocator.dealloc (pa : PageAllocator) (addr num_pages : Nat) :
    Except UnmapError Unit × PageAllocator :=
  PageAllocator.deallocLoop addr (List.range num_pages) pa

/-! Concrete page-allocator states used to evaluate the code. -/

/-- Four free frames, empty mapper, cursor at 0x10000. -/
def demoPA : PageAllocator :=
  { frame_allocator := { base_addr := 0, frame_count := 4, bitmap := List.replicate 4 false }
    mapper := ⟨[]⟩
    current_virt := 0x10000
    end_virt := 0x100000 }

/-- Exactly one free frame, empty mapper, cursor at 0x20000. -/
def demoPA5 : PageAllocator :=
  { frame_allocator := { base_addr := 0, frame_count := 1, bitmap := [false] }
    mapper := ⟨[]⟩
    current_virt := 0x20000
    end_virt := 0x100000 }

/-- C1: for every `alloc(num_pages, flags)` returning `Ok`, `current_virt`
advances by exactly `num_pages * 4096`. The code increments the cursor by
`bytes_needed` inside the per-page loop, so a successful `alloc(2, RW)` from
cursor 0x10000 returns `Ok 0x10000` but leaves the cursor at
0x10000 + 4·4096 = 0x14000, not 0x10000 + 2·4096: the claim fails on the code. -/
theorem alloc_advances_cursor_quadratically :
    (demoPA.alloc 2 PRESENT_WRITABLE).1 = Except.ok 0x10000 ∧
    (demoPA.alloc 2 PRESENT_WRITABLE).2.current_virt = 0x10000 + 4 * 4096 ∧
    0x10000 + 4 * 4096 ≠ 0x10000 + 2 * 4096 := by
  refine ⟨rfl, rfl, by decide⟩

/-- C5: if `alloc` fails because the frame allocator runs dry after some pages
were mapped, the claim says every already-mapped page is unwound. The code
returns the error with the first page still mapped and its frame still marked
used: starting from one free frame and an empty mapper, `alloc(2, RW)` errors
out yet leaves `[(0x20000, 0, RW)]` in the mapper and the frame bit set. -/
theorem alloc_failure_leaves_partial_state :
    (demoPA5.alloc 2 PRESENT_WRITABLE).1 = Except.error MapToError.frameAllocationFailed ∧
    (demoPA5.alloc 2 PRESENT_WRITABLE).2.mapper.entries = [(0x20000, 0, PRESENT_WRITABLE)] ∧
    (demoPA5.alloc 2 PRESENT_WRITABLE).2.frame_allocator.bitmap = [true] := by
  refine ⟨rfl, rfl, rfl⟩

/-! ## Correctness of `allocate_frame` (claim C7) -/

theorem firstFreeIdx_eq_some (l : List Bool) (i : Nat) (h : firstFreeIdx l = some i) :
    l[i]? = some false ∧ ∀ j, j < i → l[j]? = some true := by
  induction l generalizing i with
  | nil => simp [firstFreeIdx] at h
  | cons b bs ih =>
    cases b with
    | true =>
      cases hfb : firstFreeIdx bs with
      | none => rw [firstFreeIdx, hfb] at h; simp at h
      | some k =>
        rw [firstFreeIdx, hfb] at h
        have h' : some (k + 1) = some i := h
        cases Option.some.inj h'
        obtain ⟨h1, h2⟩ := ih k hfb
        refine ⟨by simpa using h1, ?_⟩
        intro j hj
        cases j with
        | zero => simp
        | succ j' => simpa using h2 j' (Nat.lt_of_succ_lt_succ hj)
    | false =>
      have h' : some 0 = some i := h
      cases Option.some.inj h'
      exact ⟨by simp, fun j hj => absurd hj (Nat.not_lt_zero j)⟩

theorem firstFreeIdx_eq_none (l : List Bool) :
    firstFreeIdx l = none ↔ ∀ j, j < l.length → l[j]? = some true := by
  induction l with
  | nil => simp [firstFreeIdx]
  | cons b bs ih =>
    cases b with
    | true =>
      rw [firstFreeIdx]
      constructor
      · intro h j hj
        have hn : firstFreeIdx bs = none := by
          cases hfb : firstFreeIdx bs with
          | none => rfl
          | some k => rw [hfb] at h; simp at h
        cases j with
        | zero => simp
        | succ j' => simpa using (ih.mp hn) j' (by simpa using hj)
      · intro h
        have hn : firstFreeIdx bs = none :=
          ih.mpr fun j hj => by simpa using h (j + 1) (by simpa using hj)
        rw [hn]; rfl
    | false =>
      constructor
      · intro h
        have h' : some 0 = none := h
        simp at h'
      · intro h
        have := h 0 (by simp)
        simp at this

/-- C7: `allocate_frame` returns `some f` where `f` is the frame of the
lowest-index free bit, setting that bit to used; it returns `none` exactly
when no bit is free (and then the allocator is unchanged). -/
theorem allocate_frame_correct (a : BitmapFrameAllocator) :
    (∀ f, (allocate_frame a).1 = some f →
      ∃ i, a.bitmap[i]? = some false ∧ (∀ j, j < i → a.bitmap[j]? = some true) ∧
        f = index_as_frame a i ∧ (allocate_frame a).2.bitmap = a.bitmap.set i true) ∧
    ((allocate_frame a).1 = none ↔ ∀ j, j < a.bitmap.length → a.bitmap[j]? = some true) ∧
    ((allocate_frame a).1 = none → (allocate_frame a).2 = a) := by
  refine ⟨?_, ?_, ?_⟩
  · intro f hf
    cases hidx : firstFreeIdx a.bitmap with
    | none => simp [allocate_frame, hidx] at hf
    | some i =>
      simp only [allocate_frame, hidx] at hf ⊢
      obtain ⟨h1, h2⟩ := firstFreeIdx_eq_some a.bitmap i hidx
      exact ⟨i, h1, h2, (Option.some.inj hf).symm, rfl⟩
  · cases hidx : firstFreeIdx a.bitmap with
    | none =>
      simp only [allocate_frame, hidx]
      simpa using (firstFreeIdx_eq_none a.bitmap).mp hidx
    | some i =>
      simp only [allocate_frame, hidx]
      constructor
      · intro h; simp at h
      · intro h
        have := (firstFreeIdx_eq_none a.bitmap).mpr h
        rw [hidx] at this; exact absurd this (by simp)
  · cases hidx : firstFreeIdx a.bitmap with
    | none => simp [allocate_frame, hidx]
    | some i => simp [allocate_frame, hidx]

/-- Concrete frame allocator for the C7 witness: frame 1 is the first free bit. -/
def demoBA : BitmapFrameAllocator :=
  { base_addr := 0, frame_count := 3, bitmap := [true, false, true] }

theorem allocate_frame_correct_witness :
    ∃ i, demoBA.bitmap[i]? = some false ∧ (∀ j, j < i → demoBA.bitmap[j]? = some true) ∧
      (4096 : Nat) = index_as_frame demoBA i ∧
      (allocate_frame demoBA).2.bitmap = demoBA.bitmap.set i true :=
  (allocate_frame_correct demoBA).1 4096 (by rfl)

/-! ## `BitmapFrameAllocator::init` (`src/src/memory.rs`, claim C2) -/

inductive MemoryRegionKind
  | Usable
  | Reserved
  | Bootloader
  | UnknownBios
  deriving Repr, DecidableEq

/-- A firmware memory region; `stop` embeds the Rust field `end`
(a reserved word in Lean). -/
structure MemoryRegion where
  start : Nat
  stop : Nat
  kind : MemoryRegionKind
  deriving Repr, DecidableEq

structure AddressRange where
  start : Nat
  stop : Nat
  deriving Repr, DecidableEq

/-- Embeds `ranges_intersect`: `a_start < b_end && a_end > b_start`. -/
def ranges_intersect (a_start a_end b_start b_end : Nat) : Bool :=
  decide (a_start < b_end) && decide (b_start < a_end)

/-- Step 2 of `init`: maximum physical end address over all `Usable` regions. -/
def max_usable_addr (regions : List MemoryRegion) : Nat :=
  regions.foldl
    (fun max_addr r =>
      if r.kind = MemoryRegionKind.Usable then
        if max_addr < r.stop then r.stop else max_addr
      else max_addr)
    0

/-- Step 5 of `init`: the first (at most 32) non-usable regions. The static
array's untouched `(0, 0)` padding entries never intersect anything
(`ranges_intersect` is false on an empty range), so they are dropped. -/
def illegal_regions (regions : List MemoryRegion) : List AddressRange :=
  ((regions.filter fun r => !(r.kind == MemoryRegionKind.Usable)).take 32).map
    fun r => ⟨r.start, r.stop⟩

/-- Step 6 of `init`: the base of the first `Usable` region that can hold the
bitmap and intersects no illegal region. -/
def find_bitmap_region (illegal : List AddressRange) (bytes_needed : Nat) :
    List MemoryRegion → Option Nat
  | [] => none
  | r :: rest =>
    if r.kind = MemoryRegionKind.Usable ∧ bytes_needed ≤ r.stop - r.start ∧
        (illegal.all fun off => !(ranges_intersect r.start r.stop off.start off.stop)) = true
    then some r.start
    else find_bitmap_region illegal bytes_needed rest

/-- Step 11 of `init`: mark the bitmap's own frames used
(guarded by `frame_num < max_frame`). -/
def mark_bitmap_frames (bits : List Bool) (start_frame end_frame max_frame : Nat) :
    List Bool :=
  (((List.range (end_frame - start_frame)).map (· + start_frame)).filter
      fun f => decide (f < max_frame)).foldl
    (fun bs f => bs.set f true) bits

/-- Step 12 of `init` for one region, faithful to the source: the loop bounds
are `start_frame = region.end / PAGE_SIZE` and
`end_frame = (region.start + PAGE_SIZE - 1) / PAGE_SIZE` exactly as written
there, and the loop breaks at `max_frame` (`takeWhile`, since the range
ascends). -/
def clear_region_frames (bitmap_phys_addr bytes_needed max_frame : Nat)
    (illegal : List AddressRange) (bits : List Bool) (r : MemoryRegion) : List Bool :=
  if r.kind = MemoryRegionKind.Usable then
    let start_frame := r.stop / PAGE_SIZE
    let end_frame := (r.start + PAGE_SIZE - 1) / PAGE_SIZE
    let frames := (((List.range (end_frame - start_frame)).map (· + start_frame)).takeWhile
      fun f => decide (f < max_frame))
    frames.foldl
      (fun bs frame =>
        let frame_addr := frame * PAGE_SIZE
        let frame_end := frame_addr + PAGE_SIZE
        let bitmap_end := bitmap_phys_addr + bytes_needed
        if ranges_intersect frame_addr frame_end bitmap_phys_addr bitmap_end then bs
        else if illegal.any fun off =>
            ranges_intersect frame_addr frame_end off.start off.stop then bs
        else bs.set frame false)
      bits
  else bits

structure InitResult where
  alloc : BitmapFrameAllocator
  bitmap_phys_addr : Nat
  bytes_needed : Nat
  free_count : Nat
  deriving Repr, DecidableEq

/-- Embeds `BitmapFrameAllocator::init(memory_map, offset)`. The `offset` argument
only translates the bitmap storage into the direct map and does not affect
the bitmap's contents, so it is not modelled. `none` is the
"Could not find a suitable region" panic. -/
def bitmapInit (regions : List MemoryRegion) : Option InitResult :=
  let max_addr := max_usable_addr regions
  let max_frame := (max_addr + PAGE_SIZE - 1) / PAGE_SIZE
  let frame_count := max_frame
  let bytes_needed := (frame_count + 7) / 8
  let illegal := illegal_regions regions
  match find_bitmap_region illegal bytes_needed regions with
  | none => none
  | some bitmap_phys_addr =>
    let bits0 := List.replicate (bytes_needed * 8) true
    let start_frame := bitmap_phys_addr / PAGE_SIZE
    let end_frame := (bitmap_phys_addr + bytes_needed + PAGE_SIZE - 1) / PAGE_SIZE
    let bits1 := mark_bitmap_frames bits0 start_frame end_frame max_frame
    let bits2 := regions.foldl
      (clear_region_frames bitmap_phys_addr bytes_needed max_frame illegal) bits1
    let free_count := bits2.count false
    some
      { alloc := { base_addr := 0, frame_count := frame_count, bitmap := bits2 }
        bitmap_phys_addr := bitmap_phys_addr
        bytes_needed := bytes_needed
        free_count := free_count }

/-- The claim's condition on a frame, stated from the spec's words: the frame
lies wholly inside some `Usable` region, does not intersect the bitmap's own
storage, and intersects no non-usable region. -/
def claimFrameFree (regions : List MemoryRegion) (bitmap_phys_addr bytes_needed frame : Nat) :
    Prop :=
  (∃ r ∈ regions, r.kind = MemoryRegionKind.Usable ∧
      r.start ≤ frame * PAGE_SIZE ∧ frame * PAGE_SIZE + PAGE_SIZE ≤ r.stop) ∧
  ranges_intersect (frame * PAGE_SIZE) (frame * PAGE_SIZE + PAGE_SIZE)
    bitmap_phys_addr (bitmap_phys_addr + bytes_needed) = false ∧
  ∀ r ∈ regions, r.kind ≠ MemoryRegionKind.Usable →
    ranges_intersect (frame * PAGE_SIZE) (frame * PAGE_SIZE + PAGE_SIZE) r.start r.stop = false

/-- A reserved first page followed by a usable region of nine frames. -/
def demoRegions : List MemoryRegion :=
  [⟨0, 0x1000, MemoryRegionKind.Reserved⟩, ⟨0x1000, 0xA000, MemoryRegionKind.Usable⟩]

/-- C2: after `init`, a frame wholly inside a usable region that intersects
neither the bitmap storage (placed at 0x1000, 2 bytes) nor any non-usable
region should have bit 0. Because the source swaps the loop bounds in step 12
(`start_frame` is computed from `region.end` and `end_frame` from
`region.start`), the clearing loop is empty: frame 2 satisfies the claim's
condition yet keeps bit 1, and the reported free count is 0 instead of
at least 8. -/
theorem bitmapInit_leaves_usable_frames_used :
    ((bitmapInit demoRegions).map fun res =>
        (res.bitmap_phys_addr, res.bytes_needed, res.free_count,
          res.alloc.bitmap.getD 2 false))
      = some (0x1000, 2, 0, true) ∧
    claimFrameFree demoRegions 0x1000 2 2 := by
  constructor
  · rfl
  · unfold claimFrameFree
    decide

/-! ## Fixed-size block heap (`src/kernel/src/allocator/fixed_size_block.rs`)
and large-allocation table (`src/kernel/src/allocator/alloc_info.rs`)

A free list is embedded as the list of block addresses threaded through it
(head first), `list_lengths` as a list of counters.  The global
`PAGE_ALLOCATOR` and `LARGE_ALLOCS` statics are carried in `HeapState`. -/

def BLOCK_SIZES : List Nat := [8, 16, 32, 64, 128, 256, 512, 1024, 2048]
def MAX_LIST_LENGTH : Nat := 4096

structure FixedSizeBlockAllocator where
  list_heads : List (List Nat)
  list_lengths : List Nat
  deriving Repr, DecidableEq

/-- Embeds `Iterator::position`: index of the first element satisfying `p`. -/
def listPosition (p : α → Bool) : List α → Option Nat
  | [] => none
  | a :: as => if p a then some 0 else (listPosition p as).map (· + 1)

theorem listPosition_lt_length (p : α → Bool) (l : List α) (i : Nat)
    (h : listPosition p l = some i) : i < l.length := by
  induction l generalizing i with
  | nil => simp [listPosition] at h
  | cons a as ih =>
    by_cases hp : p a
    · rw [listPosition, if_pos hp] at h
      cases Option.some.inj h
      simp
    · simp only [listPosition, hp, if_false] at h
      cases hfb : listPosition p as with
      | none => rw [hfb] at h; simp at h
      | some k =>
        rw [hfb] at h
        have h' : some (k + 1) = some i := h
        cases Option.some.inj h'
        exact Nat.succ_lt_succ (ih k hfb)

/-- Embeds `list_index(layout)`: the smallest size class holding
`max(layout.size, layout.align)`. -/
def list_index (size align : Nat) : Option Nat :=
  let required_block_size := max size align
  listPosition (fun s => decide (required_block_size ≤ s)) BLOCK_SIZES

/-- Embeds `LARGE_ALLOCS`: 512 optional `(addr, num_pages)` slots. -/
def LargeAllocTable := List (Option (Nat × Nat))

/-- Embeds `large_alloc_insert`: first `None` slot; `none` models the
"LARGE_ALLOCS is full!" panic. -/
def large_alloc_insert : LargeAllocTable → Nat → Nat → Option LargeAllocTable
  | [], _, _ => none
  | none :: rest, addr, np => some (some (addr, np) :: rest)
  | some s :: rest, addr, np => (large_alloc_insert rest addr np).map (some s :: ·)

structure HeapState where
  heap : FixedSizeBlockAllocator
  page_alloc : PageAllocator
  large_allocs : LargeAllocTable

/-- Embeds `fallback_alloc(layout)`: page-round the requirement up, get pages from
the page allocator, record the allocation in `LARGE_ALLOCS`. The inner
`Option Nat` is the returned pointer (`none` = null); the outer `none` is the
table-full panic. -/
def fallback_alloc (s : HeapState) (size align : Nat) : Option (Option Nat × HeapState) :=
  let sz := max size align
  let num_pages := (sz + (PAGE_SIZE - 1)) / PAGE_SIZE
  match s.page_alloc.alloc num_pages PRESENT_WRITABLE with
  | (Except.ok addr, pa) =>
    match large_alloc_insert s.large_allocs addr num_pages with
    | some table => some (some addr, { s with page_alloc := pa, large_allocs := table })
    | none => none
  | (Except.error _, pa) => some (none, { s with page_alloc := pa })

/-- The carving loop of `refill_free_list` / `init`: push each block address
onto the front of the list, exactly in loop order. -/
def push_blocks (block_size : Nat) : Nat → Nat → List Nat → List Nat
  | _, 0, l => l
  | current_addr, k + 1, l =>
    push_blocks block_size (current_addr + block_size) k (current_addr :: l)

/-- Embeds `refill_free_list(index)`: one page from the page allocator, first block
to the caller, the rest pushed onto list `index`. `list_lengths` is not
touched, as in the source. -/
def refill_free_list (s : HeapState) (index : Nat) : Option Nat × HeapState :=
  match s.page_alloc.alloc 1 PRESENT_WRITABLE with
  | (Except.error _, pa) => (none, { s with page_alloc := pa })
  | (Except.ok page, pa) =>
    let block_size := BLOCK_SIZES.getD index 0
    let num_blocks := PAGE_SIZE / block_size
    let user_block := page
    let new_list :=
      push_blocks block_size (page + block_size) (num_blocks - 1)
        (s.heap.list_heads.getD index [])
    (some user_block,
      { s with
        page_alloc := pa
        heap := { s.heap with list_heads := s.heap.list_heads.set index new_list } })

/-- Embeds `GlobalAlloc::alloc(layout)` for the locked heap. Small classes pop the
list head (without decrementing `list_lengths`, as in the source) or refill;
everything else goes to `fallback_alloc`. -/
def heap_alloc (s : HeapState) (size align : Nat) : Option (Option Nat × HeapState) :=
  match list_index size align with
  | some index =>
    match s.heap.list_heads.getD index [] with
    | node :: rest =>
      some (some node,
        { s with heap := { s.heap with list_heads := s.heap.list_heads.set index rest } })
    | [] => some (refill_free_list s index)
  | none => fallback_alloc s size align

/-- The large branch of `dealloc`: scan all slots, call
`PageAllocator::dealloc` on the matching one, and leave every slot unchanged,
as in the source. `none` models the `expect("dealloc failed")` panic. -/
def large_dealloc_scan (ptr : Nat) : LargeAllocTable → HeapState → Option HeapState
  | [], s => some s
  | none :: rest, s => large_dealloc_scan ptr rest s
  | some (addr, num_pages) :: rest, s =>
    if addr = ptr then
      match s.page_alloc.dealloc addr num_pages with
      | (Except.ok _, pa) => large_dealloc_scan ptr rest { s with page_alloc := pa }
      | (Except.error _, _) => none
    else large_dealloc_scan ptr rest s

/-- Embeds `GlobalAlloc::dealloc(ptr, layout)` for the locked heap. -/
def heap_dealloc (s : HeapState) (ptr size align : Nat) : Option HeapState :=
  match list_index size align with
  | some index =>
    if s.heap.list_lengths.getD index 0 < MAX_LIST_LENGTH then
      some
        { s with
          heap :=
            { s.heap with
              list_heads :=
                s.heap.list_heads.set index (ptr :: s.heap.list_heads.getD index [])
              list_lengths :=
                s.heap.list_lengths.set index (s.heap.list_lengths.getD index 0 + 1) } }
    else
      some s
  | none => large_dealloc_scan ptr s.large_allocs s

/-- Invariant I5 of the spec: each class's stored count equals the length of
its free list. -/
def countsInvariant (f : FixedSizeBlockAllocator) : Prop :=
  ∀ k, k < 9 → f.list_lengths.getD k 0 = (f.list_heads.getD k []).length

instance countsInvariantDecidable (f : FixedSizeBlockAllocator) :
    Decidable (countsInvariant f) := by
  unfold countsInvariant
  infer_instance

/-! Concrete heap states used to evaluate the code. -/

/-- A page allocator whose state is irrelevant to the small-block paths. -/
def idlePA : PageAllocator :=
  { frame_allocator := { base_addr := 0, frame_count := 0, bitmap := [] }
    mapper := ⟨[]⟩
    current_virt := KERNEL_HEAP_START
    end_virt := KERNEL_HEAP_END }

/-- Heap state for C3: a live large allocation of 3 pages at 0x10000,
recorded in slot 0, with its three pages mapped to frames 0..2. -/
def demoLarge : HeapState :=
  { heap := { list_heads := List.replicate 9 [], list_lengths := List.replicate 9 0 }
    page_alloc :=
      { frame_allocator := { base_addr := 0, frame_count := 3, bitmap := [true, true, true] }
        mapper := ⟨[(0x10000, 0, PRESENT_WRITABLE), (0x11000, 0x1000, PRESENT_WRITABLE),
          (0x12000, 0x2000, PRESENT_WRITABLE)]⟩
        current_virt := 0x13000
        end_virt := 0x100000 }
    large_allocs := (List.replicate 512 (none : Option (Nat × Nat))).set 0 (some (0x10000, 3)) }

set_option maxRecDepth 8000 in
/-- C3: freeing the live large allocation `(0x10000, 3)` with a 10000-byte
layout does return the 3 frames and unmap the 3 pages through the page
allocator, but the table slot is NOT cleared: it still holds
`(0x10000, 3)` afterwards, so the claim's "sets that table slot to None"
fails on the code. -/
theorem large_dealloc_leaves_slot_set :
    ((heap_dealloc demoLarge 0x10000 10000 8).map fun s =>
        (s.page_alloc.frame_allocator.bitmap, s.page_alloc.mapper.entries,
          s.large_allocs.getD 0 none))
      = some ([false, false, false], [], some (0x10000, 3)) := by
  rfl

/-- Heap state for C4: class-8 free list holds one node (address 0x6000) and
the stored count is 1, so invariant I5 holds. -/
def demoCounts : HeapState :=
  { heap :=
      { list_heads := (List.replicate 9 ([] : List Nat)).set 0 [0x6000]
        list_lengths := (List.replicate 9 0).set 0 1 }
    page_alloc := idlePA
    large_allocs := List.replicate 512 none }

/-- C4: `alloc` pops a block without decrementing `list_lengths`, so from a
state satisfying I5 a single `alloc(8)` breaks I5, and the `alloc`-then-
`dealloc` round trip leaves the class-8 count at 2 instead of the original
1 — the claim fails on the code. -/
theorem heap_alloc_breaks_count_invariant :
    countsInvariant demoCounts.heap ∧
    demoCounts.heap.list_lengths.getD 0 0 = 1 ∧
    ((heap_alloc demoCounts 8 8).map fun r =>
        (r.1, decide (countsInvariant r.2.heap),
          (heap_dealloc r.2 0x6000 8 8).map fun s => s.heap.list_lengths.getD 0 0))
      = some (some 0x6000, false, some 2) := by
  refine ⟨?_, rfl, ?_⟩
  · decide
  · rfl

/-! ## LIFO round trip on a size class (claim C8) -/

theorem getD_set_self (l : List α) (i : Nat) (x d : α) (h : i < l.length) :
    (l.set i x).getD i d = x := by
  induction l generalizing i with
  | nil => simp at h
  | cons a as ih =>
    cases i with
    | zero => rfl
    | succ n => simpa using ih n (Nat.lt_of_succ_lt_succ h)

theorem list_index_lt_nine (size align k : Nat) (hk : list_index size align = some k) :
    k < 9 := by
  have := listPosition_lt_length _ _ _ hk
  simpa [BLOCK_SIZES] using this

/-- C8: for any small layout mapping to class `k` whose free list is below
capacity, `dealloc(p, layout)` pushes `p` onto the head of list `k` and the
following `alloc(layout)` pops that same head, so the round trip returns the
same address `p`. -/
theorem dealloc_then_alloc_same_address (s : HeapState) (p size align k : Nat)
    (hk : list_index size align = some k)
    (hheads : s.heap.list_heads.length = 9)
    (hlen : s.heap.list_lengths.getD k 0 < MAX_LIST_LENGTH) :
    ∃ s1, heap_dealloc s p size align = some s1 ∧
      ∃ s2, heap_alloc s1 size align = some (some p, s2) := by
  have hk9 : k < 9 := list_index_lt_nine size align k hk
  have hlt : k < s.heap.list_heads.length := by rw [hheads]; exact hk9
  have hset := getD_set_self s.heap.list_heads k (p :: s.heap.list_heads.getD k []) [] hlt
  refine ⟨{ s with heap := { s.heap with
      list_heads := s.heap.list_heads.set k (p :: s.heap.list_heads.getD k [])
      list_lengths := s.heap.list_lengths.set k (s.heap.list_lengths.getD k 0 + 1) } },
    ?_, ?_⟩
  · simp only [heap_dealloc, hk]
    rw [if_pos hlen]
  · simp only [heap_alloc, hk, hset]
    exact ⟨_, rfl⟩

/-- Fresh heap for the C8 witness: the layout of 24 bytes aligned 8 maps to
class index 2 (block size 32). -/
def demoLifo : HeapState :=
  { heap := { list_heads := List.replicate 9 [], list_lengths := List.replicate 9 0 }
    page_alloc := idlePA
    large_allocs := List.replicate 512 none }

theorem dealloc_then_alloc_same_address_witness :
    ∃ s1, heap_dealloc demoLifo 0x5000 24 8 = some s1 ∧
      ∃ s2, heap_alloc s1 24 8 = some (some 0x5000, s2) :=
  dealloc_then_alloc_same_address demoLifo 0x5000 24 8 2 (by decide) (by decide) (by decide)

/-! ## Large allocations and alignment (claim C10) -/

theorem alloc_ok_cursor (pa : PageAllocator) (n flags a : Nat)
    (h : (pa.alloc n flags).1 = Except.ok a) : a = pa.current_virt := by
  simp only [PageAllocator.alloc] at h
  by_cases hend : pa.end_virt < pa.current_virt + n * PAGE_SIZE
  · rw [if_pos hend] at h
    simp at h
  · rw [if_neg hend] at h
    cases hloop : PageAllocator.allocLoop pa.current_virt (n * PAGE_SIZE) flags
        (List.range n) pa with
    | mk r pa' =>
      rw [hloop] at h
      cases r with
      | ok u => exact (Except.ok.inj h).symm
      | error e => simp at h

/-- Fresh boot-time state for C10: empty heap lists, empty mapper, eight free
frames, cursor at `KERNEL_HEAP_START` (which is 8192-byte aligned). -/
def initTwoStep : HeapState :=
  { heap := { list_heads := List.replicate 9 [], list_lengths := List.replicate 9 0 }
    page_alloc :=
      { frame_allocator := { base_addr := 0, frame_count := 8, bitmap := List.replicate 8 false }
        mapper := ⟨[]⟩
        current_virt := KERNEL_HEAP_START
        end_virt := KERNEL_HEAP_END }
    large_allocs := List.replicate 512 none }

set_option maxRecDepth 8000 in
/-- C10: a successful page-allocator `alloc` always returns the entry cursor,
and the heap's large path passes that cursor through unchanged; hence after a
single one-page refill moves the cursor to `KERNEL_HEAP_START + 4096`, a
large request with `align = 8192 > 4096` receives a pointer that is 4096-byte
aligned but NOT 8192-byte aligned. -/
theorem large_alloc_returns_unaligned_cursor :
    (∀ (pa : PageAllocator) (n flags a : Nat),
        (pa.alloc n flags).1 = Except.ok a → a = pa.current_virt) ∧
    ((heap_alloc initTwoStep 8 8).bind fun r1 =>
        (heap_alloc r1.2 8192 8192).map fun r2 =>
          (r1.1, r1.2.page_alloc.current_virt, r2.1))
      = some (some KERNEL_HEAP_START, KERNEL_HEAP_START + 4096,
          some (KERNEL_HEAP_START + 4096)) ∧
    (KERNEL_HEAP_START + 4096) % 4096 = 0 ∧
    (KERNEL_HEAP_START + 4096) % 8192 = 4096 := by
  refine ⟨alloc_ok_cursor, ?_, by decide, by decide⟩
  rfl

theorem large_alloc_returns_unaligned_cursor_witness :
    (KERNEL_HEAP_START : Nat) = initTwoStep.page_alloc.current_virt :=
  large_alloc_returns_unaligned_cursor.1 initTwoStep.page_alloc 1 PRESENT_WRITABLE
    KERNEL_HEAP_START (by rfl)

/-! ## SMP bring-up and AP stacks (`src/kernel/src/init/multicore.rs`,
`src/kernel/src/smp/trampoline.rs`, claim C6) -/

def AP_STACK_SIZE : Nat := 32768
def NUM_AP_STACKS : Nat := 4

/-- Embeds `allocate_ap_stack`: fetch-add on the stack index, returning the top of
stack `index` (its base plus 32 KiB) and the incremented index; `none` models
the "Out of AP stacks!" panic. `stacks_base` is the link-time address of the
static `AP_STACKS` array. -/
def allocate_ap_stack (stacks_base index : Nat) : Option (Nat × Nat) :=
  if NUM_AP_STACKS ≤ index then none
  else some (stacks_base + index * AP_STACK_SIZE + AP_STACK_SIZE, index + 1)

/-- The patched data fields of the trampoline image at 0x8000. -/
structure Trampoline where
  cr3val : Nat
  kcode : Nat
  kstack : Nat
  kgsval : Nat
  commword : Nat
  deriving Repr, DecidableEq

/-- Embeds `patch_trampoline`: writes CR3, the kernel entry, ONE freshly allocated
AP stack top, GS = 0, and clears the communication word. -/
def patch_trampoline (stacks_base cr3 ap_entry index : Nat) : Option (Trampoline × Nat) :=
  (allocate_ap_stack stacks_base index).map fun ti =>
    ({ cr3val := cr3, kcode := ap_entry, kstack := ti.1, kgsval := 0, commword := 0 }, ti.2)

/-- Embeds `init_smp`, faithful to the source's control flow: `load_ap_trampoline`
and `patch_trampoline` run ONCE before the per-AP loop, which then sends
INIT/SIPI to every AP in `WaitingForSipi` state with the trampoline exactly
as patched. The result is the trampoline stack top each waiting AP observes,
together with the final value of the atomic stack index. -/
def init_smp (stacks_base cr3 ap_entry : Nat) (aps_waiting : List Bool) :
    Option (List Nat × Nat) :=
  (patch_trampoline stacks_base cr3 ap_entry 0).map fun ti =>
    ((aps_waiting.filter id).map fun _ => ti.1.kstack, ti.2)

/-- C6: with 3 APs in waiting state the claim expects three fetch-adds and
three distinct stack tops; the code allocates a single stack (final index 1)
and every AP is started with that same top `stacks_base + 32768`. -/
theorem init_smp_assigns_single_stack_top (stacks_base cr3 ap_entry : Nat) :
    init_smp stacks_base cr3 ap_entry [true, true, true]
      = some ([stacks_base + AP_STACK_SIZE, stacks_base + AP_STACK_SIZE,
          stacks_base + AP_STACK_SIZE], 1) := by
  simp [init_smp, patch_trampoline, allocate_ap_stack, NUM_AP_STACKS, AP_STACK_SIZE,
    List.filter]

/-! ## ACPI mapper shim (`src/kernel/src/kernel_acpi.rs`, claim C9) -/

/-- The fields of the `PhysicalMapping` built by `map_physical_region`. -/
structure PhysicalMappingResult where
  physical_start : Nat
  virtual_start : Nat
  region_length : Nat
  mapped_length : Nat
  deriving Repr, DecidableEq

/-- Embeds `KernelAcpiHandler::map_physical_region(physical_address, size)` with the
direct-map offset: `physical_address & !(PAGE_SIZE - 1)` is embedded as
subtracting the remainder mod 4096; `none` models the
`expect("Mapping must not be null")` failure on a null pointer. -/
def map_physical_region (offset physical_address size : Nat) :
    Option PhysicalMappingResult :=
  let phys_base_page := physical_address - physical_address % PAGE_SIZE
  let offset_in_page := physical_address - phys_base_page
  let mapped_size := offset_in_page + size
  let virt_base := offset + phys_base_page
  let t_virtual := virt_base + offset_in_page
  if t_virtual = 0 then none
  else some ⟨physical_address, t_virtual, size, mapped_size⟩

/-- Embeds `KernelAcpiHandler::unmap_physical_region`: a no-op; the direct mapping
is left exactly as it was. -/
def unmap_physical_region (m : Mapper) : Mapper := m

/-- C9: the ACPI mapper returns virtual address `offset + physical_address`
(failing exactly when that pointer is null), and `unmap` leaves the direct
mapping intact. -/
theorem acpi_map_is_direct_map (offset physical_address size : Nat) :
    map_physical_region offset physical_address size
      = (if offset + physical_address = 0 then none
         else some ⟨physical_address, offset + physical_address, size,
           physical_address % PAGE_SIZE + size⟩) ∧
    ∀ m : Mapper, unmap_physical_region m = m := by
  constructor
  · have e2 : physical_address - (physical_address - physical_address % PAGE_SIZE)
        = physical_address % PAGE_SIZE := Nat.sub_sub_self (Nat.mod_le _ _)
    have e1 : physical_address - physical_address % PAGE_SIZE
        + physical_address % PAGE_SIZE = physical_address := Nat.sub_add_cancel (Nat.mod_le _ _)
    simp only [map_physical_region, e2]
    rw [Nat.add_assoc, e1]
  · intro m
    rfl

end RustKernel
